import Mathlib

/-!
# Verification of the real-time telemetry engine (backend/main.py)

Shallow embedding of the telemetry core of the repository's backend:
the per-tick sensor simulation (`simulate_sensors`), threshold
classification (`update_sensor`), the bounded per-channel history
window, the anomaly-detection cycle (`ai_loop`), and the WebSocket
fan-out (`broadcast_state`, `websocket_endpoint`).

Machine floats are modelled by exact rationals; the `random` draws are
passed in explicitly so every function is deterministic; the event loop
is modelled by applying one iteration body as a pure state transformer.
-/

namespace NovaTwin

/-- `class SensorData(BaseModel)` — one published reading per channel. -/
structure SensorData where
  id : String
  value : ℚ
  unit : String
  status : String
deriving DecidableEq, Repr

/-- `class AnomalyEvent(BaseModel)`. -/
structure AnomalyEvent where
  zone : String
  severity : ℚ
  timestamp : ℚ
deriving DecidableEq, Repr

/-- The five fixed keys of `GlobalState.history` (a dict with exactly
these keys, fixed at construction). -/
structure History where
  temperature : List ℚ
  pressure : List ℚ
  ph : List ℚ
  flowRate : List ℚ
  vibration : List ℚ
deriving DecidableEq, Repr

/-- `class GlobalState` — the process-wide mutable state.  `sensors` is
an insertion-ordered dict keyed by `SensorData.id` (Python dicts keep
insertion order), modelled as a list upserted by id.  `twin_state` is a
dict whose only key is `"core"`, modelled by that single value.
Subscriber connections are opaque handles, modelled by naturals. -/
structure GlobalState where
  sensors : List SensorData
  anomalies : List AnomalyEvent
  twinCore : String
  clients : List ℕ
  history : History
  is_model_fitted : Bool
  data_count : ℕ
deriving DecidableEq, Repr

/-- The initial `GlobalState()` of the module. -/
def initState : GlobalState :=
  { sensors := [], anomalies := [], twinCore := "normal", clients := [],
    history := ⟨[], [], [], [], []⟩, is_model_fitted := false, data_count := 0 }

/-- `generate_sensor_value(current, min_val, max_val, noise)`: adds the
uniform draw (passed explicitly as `change`, with `|change| ≤ noise` for
a real draw) and clamps to `[min_val, max_val]`. -/
def generate_sensor_value (current min_val max_val change : ℚ) : ℚ :=
  max min_val (min (current + change) max_val)

/-- The status computation inside `update_sensor`: warning when outside
`[low_thresh, high_thresh]`, critical when beyond `high_thresh * 1.05`
or below `low_thresh * 0.95`. -/
def classify (value high_thresh low_thresh : ℚ) : String :=
  if value > high_thresh ∨ value < low_thresh then
    if value > high_thresh * 1.05 ∨ value < low_thresh * 0.95 then "critical"
    else "warning"
  else "normal"

/-- Python's `round(q, 2)`: round to two decimals, ties to even. -/
def pyRound2 (q : ℚ) : ℚ :=
  let s := q * 100
  let f : ℤ := ⌊s⌋
  let r := s - (f : ℚ)
  let n : ℤ :=
    if r < 1/2 then f
    else if r > 1/2 then f + 1
    else if f % 2 = 0 then f else f + 1
  (n : ℚ) / 100

/-- Dict assignment `state.sensors[id] = s`: replace in place when the
key exists, append otherwise. -/
def setSensor (sensors : List SensorData) (s : SensorData) : List SensorData :=
  if sensors.any (fun t => t.id == s.id) then
    sensors.map (fun t => if t.id = s.id then s else t)
  else sensors ++ [s]

/-- `update_sensor(id, value, unit, high_thresh, low_thresh)`: stores the
value rounded to two decimals with the status computed on the raw value. -/
def update_sensor (sensors : List SensorData) (id : String) (value : ℚ)
    (unit : String) (high_thresh low_thresh : ℚ) : List SensorData :=
  setSensor sensors
    ⟨id, pyRound2 value, unit, classify value high_thresh low_thresh⟩

/-- Dict lookup `state.sensors[id]` (first — and under nodup ids only —
entry with that id). -/
def getSensor (sensors : List SensorData) (id : String) : Option SensorData :=
  sensors.find? (fun t => t.id == id)

/-- `l.append(v)` followed by `if len(l) > cap: l.pop(0)` — the bounded
append used for each history channel (cap 50) and the anomaly log
(cap 10). -/
def trimAppend (cap : ℕ) (l : List α) (v : α) : List α :=
  let l2 := l ++ [v]
  if cap < l2.length then l2.drop 1 else l2

/-- The last `n` elements of a list (`l[-n:]`). -/
def takeLast (n : ℕ) (l : List α) : List α :=
  l.drop (l.length - n)

/-- The five local simulation variables of `simulate_sensors`. -/
structure ChannelVals where
  temps : ℚ
  pressure : ℚ
  ph : ℚ
  flow : ℚ
  vibration : ℚ
deriving DecidableEq, Repr

/-- The random draws consumed by one iteration of `simulate_sensors`:
the five `random.uniform(-noise, noise)` perturbations, plus
`spikeDraw` (= `random.random() < 0.05`) and `spikeTemp`
(= `random.random() < 0.5`, temperature instead of pressure). -/
structure TickRand where
  dTemp : ℚ
  dPress : ℚ
  dPh : ℚ
  dFlow : ℚ
  dVib : ℚ
  spikeDraw : Bool
  spikeTemp : Bool
deriving DecidableEq, Repr

/-- The block of five `update_sensor` calls of `simulate_sensors`, with
the thresholds hardcoded at the call sites. -/
def tickSensors (sensors : List SensorData) (v : ChannelVals) : List SensorData :=
  update_sensor (update_sensor (update_sensor (update_sensor (update_sensor sensors
    "temperature" v.temps "°C" 375 355)
    "pressure" v.pressure "MPa" 2.35 2.05)
    "ph" v.ph "pH" 7.15 6.85)
    "flowRate" v.flow "m³/h" 145 125)
    "vibration" v.vibration "mm/s" 8 0

/-- One iteration of the `while True` body of `simulate_sensors`:
random-walk with clamping for the five channels, the optional anomaly
spike (added AFTER `generate_sensor_value`, hence after clamping),
the five `update_sensor` calls, the history appends with the window
trim to 50, and the `data_count` increment.  Returns the new state and
the new values of the five loop-local variables. -/
def simulateTick (st : GlobalState) (prev : ChannelVals) (r : TickRand) :
    GlobalState × ChannelVals :=
  let temps0 := generate_sensor_value prev.temps 350 380 r.dTemp
  let press0 := generate_sensor_value prev.pressure 2.0 2.4 r.dPress
  let ph1 := generate_sensor_value prev.ph 6.8 7.2 r.dPh
  let flow1 := generate_sensor_value prev.flow 120 150 r.dFlow
  let vib1 := generate_sensor_value prev.vibration 0 10 r.dVib
  let temps := if r.spikeDraw && r.spikeTemp then temps0 + 30 else temps0
  let press := if r.spikeDraw && !r.spikeTemp then press0 + 0.3 else press0
  let v : ChannelVals := ⟨temps, press, ph1, flow1, vib1⟩
  let hist : History :=
    ⟨trimAppend 50 st.history.temperature temps,
     trimAppend 50 st.history.pressure press,
     trimAppend 50 st.history.ph ph1,
     trimAppend 50 st.history.flowRate flow1,
     trimAppend 50 st.history.vibration vib1⟩
  ({ st with
      sensors := tickSensors st.sensors v,
      history := hist,
      data_count := st.data_count + 1 }, v)

/-- One iteration of the `while True` body of `ai_loop`.  The model
refit and the scoring of the latest row are external effects, passed in
as `fitOk` (whether `model.fit` returns normally) and `score` (the
value of `model.decision_function(latest)[0]`, `none` when it raises).
The returned `Bool` is whether the loop reaches its next iteration:
there is no `try`/`except` in `ai_loop`, so a raised exception
propagates and terminates the loop (`false`). -/
def aiCycle (st : GlobalState) (fitOk : Bool) (score : Option ℚ) :
    GlobalState × Bool :=
  if st.data_count < 50 then (st, true)
  else if st.history.temperature.length < 50 then (st, true)
  else if !fitOk then (st, false)
  else
    let st1 := { st with is_model_fitted := true }
    match score with
    | none => (st1, false)
    | some s =>
      if s < -0.2 then
        ({ st1 with
            twinCore := "critical",
            anomalies := trimAppend 10 st1.anomalies
              ⟨"core", |s|, (st1.data_count : ℚ)⟩ }, true)
      else ({ st1 with twinCore := "normal" }, true)

/-- `broadcast_state` over an abstract per-connection send outcome `ok`:
first pass sends to every client collecting the failed ones, second
pass removes each failed client (`list.remove`, i.e. erase the first
occurrence).  Returns (clients delivered to, new client list). -/
def broadcast_state (clients : List ℕ) (ok : ℕ → Bool) : List ℕ × List ℕ :=
  let disconnected := clients.filter (fun c => !(ok c))
  let delivered := clients.filter ok
  let newClients := List.foldl (fun cs c => cs.erase c) clients disconnected
  (delivered, newClients)

/-- Python `list.remove(a)`: removes the first occurrence of `a`, raises
`ValueError` when `a` is absent.  This is the detach performed by
`websocket_endpoint` on disconnect (`state.clients.remove(websocket)`). -/
def listRemove (l : List ℕ) (a : ℕ) : Except String (List ℕ) :=
  if a ∈ l then Except.ok (l.erase a) else Except.error "ValueError"

/-- The serialized message pushed to subscribers (both kinds share this
shape; `twin_state` is the dict `{"core": twinCore}`). -/
structure Envelope where
  type : String
  payload : List SensorData
  twin_state : String
  anomalies : List AnomalyEvent
deriving DecidableEq, Repr

/-- The `init` message built in `websocket_endpoint`: full reading list,
zone health, and the FULL anomaly log. -/
def initMsg (st : GlobalState) : Envelope :=
  ⟨"init", st.sensors, st.twinCore, st.anomalies⟩

/-- The `sensor_update` message built in `broadcast_state`: same payload
and zone health, but `anomalies` is `state.anomalies[-1:]` (the single
most recent event, empty when none). -/
def sensorUpdateMsg (st : GlobalState) : Envelope :=
  ⟨"sensor_update", st.sensors, st.twinCore, takeLast 1 st.anomalies⟩

/-- Severity order of the three statuses produced by `classify`. -/
def sevRank : String → ℕ
  | "warning" => 1
  | "critical" => 2
  | _ => 0

/-- The classifier as the spec states it: critical beyond the 5% margin,
warning outside `[low, high]` but within the margin, normal inside. -/
def classifySpec (value high_thresh low_thresh : ℚ) : String :=
  if value > high_thresh * 1.05 ∨ value < low_thresh * 0.95 then "critical"
  else if value > high_thresh ∨ value < low_thresh then "warning"
  else "normal"

/-- The ids of the five configured channels, in the order
`simulate_sensors` updates them. -/
def channelIds : List String :=
  ["temperature", "pressure", "ph", "flowRate", "vibration"]

/-- Ids of a sensor list, in order. -/
def sensorIds (l : List SensorData) : List String :=
  l.map (fun t => t.id)

/-- A post-warm-up state: 50 samples per channel, 60 ticks elapsed. -/
def warmState : GlobalState :=
  { initState with
      history :=
        ⟨List.replicate 50 365, List.replicate 50 2.2, List.replicate 50 7,
         List.replicate 50 135, List.replicate 50 2⟩,
      data_count := 60 }

end NovaTwin

namespace NovaTwin

/-! ## Window/log trimming lemmas -/

theorem trimAppend_length_le {α : Type} (cap : ℕ) (l : List α) (v : α)
    (h : l.length ≤ cap) : (trimAppend cap l v).length ≤ cap := by
  simp only [trimAppend]
  split <;> simp_all <;> try omega

theorem trimAppend_eq_takeLast {α : Type} (cap : ℕ) (l : List α) (v : α)
    (h : l.length ≤ cap) : trimAppend cap l v = takeLast cap (l ++ [v]) := by
  unfold trimAppend takeLast
  by_cases hc : cap < (l ++ [v]).length
  · have h1 : (l ++ [v]).length - cap = 1 := by simp at hc ⊢; omega
    rw [if_pos hc, h1]
  · have h1 : (l ++ [v]).length - cap = 0 := by simp at hc ⊢; omega
    rw [if_neg hc, h1, List.drop_zero]

theorem trimAppend_of_full {α : Type} (cap : ℕ) (l : List α) (v : α)
    (h : l.length = cap) (hpos : 0 < cap) : trimAppend cap l v = l.drop 1 ++ [v] := by
  unfold trimAppend
  have hc : cap < (l ++ [v]).length := by simp; omega
  rw [if_pos hc]
  rcases l with _ | ⟨x, t⟩
  · simp at h; omega
  · simp

theorem takeLast_length_le {α : Type} (n : ℕ) (l : List α) :
    (takeLast n l).length ≤ n := by
  unfold takeLast
  simp only [List.length_drop]
  omega

theorem foldl_trimAppend {α : Type} (cap : ℕ) (vs : List α) :
    ∀ (buf : List α), buf.length ≤ cap →
      List.foldl (trimAppend cap) buf vs
        = (buf ++ vs).drop (buf.length + vs.length - cap) := by
  induction vs with
  | nil =>
    intro buf h
    simp [Nat.sub_eq_zero_of_le h]
  | cons v t ih =>
    intro buf h
    rw [List.foldl_cons]
    by_cases hc : buf.length < cap
    · have he : trimAppend cap buf v = buf ++ [v] := by
        unfold trimAppend
        rw [if_neg]
        simp
        omega
      rw [he, ih _ (by simp; omega)]
      have hl : (buf ++ [v]) ++ t = buf ++ v :: t := by simp
      rw [hl]
      congr 1
      simp
      omega
    · have hlen : buf.length = cap := by omega
      have he : trimAppend cap buf v = (buf ++ [v]).drop 1 := by
        unfold trimAppend
        rw [if_pos]
        simp
        omega
      rw [he, ih _ (by simp [List.length_drop]; omega)]
      rw [← List.drop_append_of_le_length (by simp)]
      rw [List.drop_drop]
      have hl : (buf ++ [v]) ++ t = buf ++ v :: t := by simp
      rw [hl]
      congr 1
      simp
      omega

/-- C5: appending `capacity + k` values (k ≥ 0) to a HistoryBuffer of
capacity 50 leaves exactly the last 50 appended values in original
relative order; the per-channel history length never exceeds the
capacity and the oldest entry is evicted on overflow. -/
theorem C5_window_eviction (k : ℕ) (vs : List ℚ) (h : vs.length = 50 + k) :
    List.foldl (trimAppend 50) [] vs = vs.drop k ∧
    (∀ (buf : List ℚ) (v : ℚ), buf.length ≤ 50 →
      (trimAppend 50 buf v).length ≤ 50) ∧
    (∀ (buf : List ℚ) (v : ℚ), buf.length = 50 →
      trimAppend 50 buf v = buf.drop 1 ++ [v]) := by
  refine ⟨?_, fun buf v hb => trimAppend_length_le 50 buf v hb,
    fun buf v hb => trimAppend_of_full 50 buf v hb (by omega)⟩
  rw [foldl_trimAppend 50 vs [] (by simp)]
  simp [h]

/-- Witness for C5 at a concrete 52-element input. -/
theorem C5_window_eviction_witness :
    ((List.range 52).map (fun n => (n : ℚ))).length = 50 + 2 ∧
    (List.foldl (trimAppend 50) [] ((List.range 52).map (fun n => (n : ℚ)))
        = ((List.range 52).map (fun n => (n : ℚ))).drop 2 ∧
     (∀ (buf : List ℚ) (v : ℚ), buf.length ≤ 50 →
       (trimAppend 50 buf v).length ≤ 50) ∧
     (∀ (buf : List ℚ) (v : ℚ), buf.length = 50 →
       trimAppend 50 buf v = buf.drop 1 ++ [v])) :=
  ⟨by decide, C5_window_eviction 2 ((List.range 52).map (fun n => (n : ℚ))) (by decide)⟩

/-! ## Detection cycle (`ai_loop`) -/

/-- C6: a detection cycle with fewer than 50 samples is a complete
no-op: the whole state (zone health, anomaly log, fitted flag) is
unchanged and the loop silently continues to the next cycle. -/
theorem C6_warmup_gate (st : GlobalState) (fitOk : Bool) (score : Option ℚ)
    (h : st.data_count < 50) : aiCycle st fitOk score = (st, true) := by
  unfold aiCycle
  rw [if_pos h]

/-- Witness for C6 on the initial state. -/
theorem C6_warmup_gate_witness :
    initState.data_count < 50 ∧ aiCycle initState true (some (-1)) = (initState, true) :=
  ⟨by decide, C6_warmup_gate initState true (some (-1)) (by decide)⟩

end NovaTwin

namespace NovaTwin

/-- C1: on an Active detection cycle (warm-up reached), a score strictly
below -0.2 sets zone health to critical and appends exactly one
AnomalyEvent with severity `|score|` and timestamp `data_count`,
trimming the log to the most recent 10; otherwise zone health is set
to normal and no event is appended. -/
theorem C1_active_cycle_decision (st : GlobalState) (s : ℚ)
    (h50 : 50 ≤ st.data_count) (hlen : 50 ≤ st.history.temperature.length)
    (hbound : st.anomalies.length ≤ 10) :
    (s < -0.2 →
      (aiCycle st true (some s)).1.twinCore = "critical" ∧
      (aiCycle st true (some s)).1.anomalies
        = takeLast 10 (st.anomalies ++ [⟨"core", |s|, (st.data_count : ℚ)⟩]) ∧
      (aiCycle st true (some s)).1.anomalies.length ≤ 10 ∧
      (aiCycle st true (some s)).2 = true) ∧
    (-0.2 ≤ s →
      (aiCycle st true (some s)).1.twinCore = "normal" ∧
      (aiCycle st true (some s)).1.anomalies = st.anomalies ∧
      (aiCycle st true (some s)).2 = true) := by
  have h1 : ¬ st.data_count < 50 := by omega
  have h2 : ¬ st.history.temperature.length < 50 := by omega
  have hstep : aiCycle st true (some s) =
      if s < -0.2 then
        ({ st with
            is_model_fitted := true, twinCore := "critical",
            anomalies := trimAppend 10 st.anomalies
              ⟨"core", |s|, (st.data_count : ℚ)⟩ }, true)
      else ({ st with is_model_fitted := true, twinCore := "normal" }, true) := by
    unfold aiCycle
    rw [if_neg h1, if_neg h2, if_neg (by simp)]
  constructor
  · intro hs
    rw [hstep, if_pos hs]
    exact ⟨rfl, trimAppend_eq_takeLast 10 _ _ hbound,
      trimAppend_length_le 10 st.anomalies _ hbound, rfl⟩
  · intro hs
    rw [hstep, if_neg (not_lt.mpr hs)]
    exact ⟨rfl, rfl, rfl⟩

/-- Witness for C1 on a warmed-up state and score -0.3. -/
theorem C1_active_cycle_decision_witness :
    (50 ≤ warmState.data_count ∧ 50 ≤ warmState.history.temperature.length ∧
      warmState.anomalies.length ≤ 10) ∧
    ((-0.3 : ℚ) < -0.2 →
      (aiCycle warmState true (some (-0.3))).1.twinCore = "critical" ∧
      (aiCycle warmState true (some (-0.3))).1.anomalies
        = takeLast 10 (warmState.anomalies
            ++ [⟨"core", |(-0.3 : ℚ)|, (warmState.data_count : ℚ)⟩]) ∧
      (aiCycle warmState true (some (-0.3))).1.anomalies.length ≤ 10 ∧
      (aiCycle warmState true (some (-0.3))).2 = true) ∧
    ((-0.2 : ℚ) ≤ -0.3 →
      (aiCycle warmState true (some (-0.3))).1.twinCore = "normal" ∧
      (aiCycle warmState true (some (-0.3))).1.anomalies = warmState.anomalies ∧
      (aiCycle warmState true (some (-0.3))).2 = true) :=
  ⟨⟨by decide, by decide, by decide⟩,
   C1_active_cycle_decision warmState (-0.3) (by decide) (by decide) (by decide)⟩

/-- C3 (divergence witness): on a post-warm-up cycle whose model refit
raises (e.g. a non-finite value in the window), `ai_loop` has no
`try`/`except`, so although the previous zone health and anomaly log
are indeed retained, the exception propagates and the detection loop
terminates permanently (second component `false`) instead of aborting
only this cycle and retrying. -/
theorem C3_fit_failure_kills_detector :
    (aiCycle warmState false none).1 = warmState ∧
    (aiCycle warmState false none).2 = false := by
  constructor <;> with_unfolding_all rfl

/-- C8 (divergence witness): the detach performed on disconnect is
`state.clients.remove(websocket)`; with clients `[0, 1]`, a first
detach of `1` yields `[0]`, and a second detach of the same connection
raises `ValueError` (Python `list.remove` on a missing element) instead
of being an idempotent no-op. -/
theorem C8_detach_not_idempotent :
    listRemove [0, 1] 1 = Except.ok [0] ∧
    listRemove [0] 1 = Except.error "ValueError" := by
  constructor <;> with_unfolding_all rfl

end NovaTwin

namespace NovaTwin

/-! ## Threshold classifier -/

theorem classify_eq_spec (low high : ℚ) (h0 : 0 ≤ low) (hlh : low ≤ high)
    (v : ℚ) : classify v high low = classifySpec v high low := by
  unfold classify classifySpec
  by_cases hB : v > high * 1.05 ∨ v < low * 0.95
  · have hA : v > high ∨ v < low := by
      rcases hB with hb | hb
      · exact Or.inl (by linarith)
      · exact Or.inr (by linarith)
    rw [if_pos hA, if_pos hB, if_pos hB]
  · by_cases hA : v > high ∨ v < low
    · rw [if_pos hA, if_neg hB, if_neg hB, if_pos hA]
    · rw [if_neg hA, if_neg hB, if_neg hA]

theorem sevRank_classify (low high : ℚ) (h0 : 0 ≤ low) (hlh : low ≤ high)
    (v : ℚ) :
    sevRank (classify v high low) =
      if v > high * 1.05 ∨ v < low * 0.95 then 2
      else if v > high ∨ v < low then 1 else 0 := by
  rw [classify_eq_spec low high h0 hlh v]
  unfold classifySpec
  split_ifs <;> rfl

theorem sevRank_classify_above (low high : ℚ) (h0 : 0 ≤ low) (hlh : low ≤ high)
    (v : ℚ) (hv : high ≤ v) :
    sevRank (classify v high low) =
      if high * 1.05 < v then 2 else if high < v then 1 else 0 := by
  rw [sevRank_classify low high h0 hlh]
  have h1 : ¬ v < low := by linarith
  have h2 : ¬ v < low * 0.95 := by nlinarith
  by_cases hc : high * 1.05 < v
  · rw [if_pos (Or.inl hc), if_pos hc]
  · have hc' : ¬ (v > high * 1.05 ∨ v < low * 0.95) := by
      rintro (h | h)
      · exact hc h
      · exact h2 h
    rw [if_neg hc', if_neg hc]
    by_cases hd : high < v
    · rw [if_pos (Or.inl hd), if_pos hd]
    · have hd' : ¬ (v > high ∨ v < low) := by
        rintro (h | h)
        · exact hd h
        · exact h1 h
      rw [if_neg hd', if_neg hd]

theorem sevRank_classify_below (low high : ℚ) (h0 : 0 ≤ low) (hlh : low ≤ high)
    (v : ℚ) (hv : v ≤ low) :
    sevRank (classify v high low) =
      if v < low * 0.95 then 2 else if v < low then 1 else 0 := by
  rw [sevRank_classify low high h0 hlh]
  have h1 : ¬ high < v := by linarith
  have h2 : ¬ high * 1.05 < v := by nlinarith
  by_cases hc : v < low * 0.95
  · rw [if_pos (Or.inr hc), if_pos hc]
  · have hc' : ¬ (v > high * 1.05 ∨ v < low * 0.95) := by
      rintro (h | h)
      · exact h2 h
      · exact hc h
    rw [if_neg hc', if_neg hc]
    by_cases hd : v < low
    · rw [if_pos (Or.inr hd), if_pos hd]
    · have hd' : ¬ (v > high ∨ v < low) := by
        rintro (h | h)
        · exact h1 h
        · exact hd h
      rw [if_neg hd', if_neg hd]

/-- C4: with per-channel thresholds `0 ≤ low ≤ high` (all configured
channels satisfy this), the classifier is total and agrees with the
documented 0%/5% margins: critical beyond 5% past a threshold, warning
outside `[low, high]` but within 5%, normal inside; its severity is
non-decreasing in the distance past the nearest threshold; and with
`highThresh = 375` the values 375.1, 393.76 and 374 classify as
warning, critical and normal. -/
theorem C4_classifier_margins (low high : ℚ) (h0 : 0 ≤ low) (hlh : low ≤ high) :
    (∀ v, classify v high low = classifySpec v high low) ∧
    (∀ v₁ v₂, high ≤ v₁ → v₁ ≤ v₂ →
      sevRank (classify v₁ high low) ≤ sevRank (classify v₂ high low)) ∧
    (∀ v₁ v₂, v₂ ≤ v₁ → v₁ ≤ low →
      sevRank (classify v₁ high low) ≤ sevRank (classify v₂ high low)) ∧
    classify 375.1 375 355 = "warning" ∧
    classify 393.76 375 355 = "critical" ∧
    classify 374 375 355 = "normal" := by
  refine ⟨classify_eq_spec low high h0 hlh, ?_, ?_, ?_, ?_, ?_⟩
  · intro v₁ v₂ hv₁ hv₁₂
    rw [sevRank_classify_above low high h0 hlh v₁ hv₁,
      sevRank_classify_above low high h0 hlh v₂ (le_trans hv₁ hv₁₂)]
    split_ifs <;> first | decide | (exfalso; linarith)
  · intro v₁ v₂ hv₂₁ hv₁
    rw [sevRank_classify_below low high h0 hlh v₁ hv₁,
      sevRank_classify_below low high h0 hlh v₂ (le_trans hv₂₁ hv₁)]
    split_ifs <;> first | decide | (exfalso; linarith)
  · with_unfolding_all rfl
  · with_unfolding_all rfl
  · with_unfolding_all rfl

/-- Witness for C4 at the temperature channel thresholds (355/375). -/
theorem C4_classifier_margins_witness :
    ((0 : ℚ) ≤ 355 ∧ (355 : ℚ) ≤ 375) ∧
    ((∀ v, classify v 375 355 = classifySpec v 375 355) ∧
     (∀ v₁ v₂, 375 ≤ v₁ → v₁ ≤ v₂ →
       sevRank (classify v₁ 375 355) ≤ sevRank (classify v₂ 375 355)) ∧
     (∀ v₁ v₂, v₂ ≤ v₁ → v₁ ≤ 355 →
       sevRank (classify v₁ 375 355) ≤ sevRank (classify v₂ 375 355)) ∧
     classify 375.1 375 355 = "warning" ∧
     classify 393.76 375 355 = "critical" ∧
     classify 374 375 355 = "normal") :=
  ⟨⟨by norm_num, by norm_num⟩, C4_classifier_margins 355 375 (by norm_num) (by norm_num)⟩

end NovaTwin

namespace NovaTwin

/-! ## Broadcaster fan-out -/

theorem length_filter_partition (p : ℕ → Bool) (l : List ℕ) :
    (l.filter p).length + (l.filter (fun x => !(p x))).length = l.length := by
  induction l with
  | nil => rfl
  | cons a t ih => by_cases h : p a <;> simp [h] <;> omega

theorem foldl_erase_filter :
    ∀ (ds l : List ℕ), l.Nodup →
      List.foldl (fun cs c => cs.erase c) l ds
        = l.filter (fun x => !(ds.contains x)) := by
  intro ds
  induction ds with
  | nil => intro l h; simp
  | cons d t ih =>
    intro l h
    rw [List.foldl_cons, ih (l.erase d) (h.erase d), List.Nodup.erase_eq_filter h d,
      List.filter_filter]
    apply List.filter_congr
    intro a _
    by_cases hd : a = d <;>
      simp [List.contains_cons, Bool.not_or, Bool.and_comm, hd]

/-- C7: a publish pass delivers the payload to every connection whose
write succeeds regardless of other connections failing, the connection
list is only mutated after the send pass (each failed connection erased
once), and the resulting client list is exactly the successful ones;
in particular the number of detaches equals the number of failing
connections. -/
theorem C7_fanout_isolation (clients : List ℕ) (ok : ℕ → Bool)
    (h : clients.Nodup) :
    (broadcast_state clients ok).1 = clients.filter ok ∧
    (broadcast_state clients ok).2 = clients.filter ok ∧
    (broadcast_state clients ok).2.length
        + (clients.filter (fun c => !(ok c))).length = clients.length := by
  have h2 : (broadcast_state clients ok).2 = clients.filter ok := by
    show List.foldl _ clients (clients.filter (fun c => !(ok c))) = _
    rw [foldl_erase_filter _ clients h]
    apply List.filter_congr
    intro a ha
    by_cases hok : ok a
    · simp [hok, List.mem_filter]
    · simp [hok, List.mem_filter, ha]
  refine ⟨rfl, h2, ?_⟩
  rw [h2]
  exact length_filter_partition ok clients

/-- Witness for C7: three subscribers `[0, 1, 2]` of which connection 1
always fails — both remaining connections receive the payload and
exactly one connection is detached. -/
theorem C7_fanout_isolation_witness :
    ([0, 1, 2] : List ℕ).Nodup ∧
    (broadcast_state [0, 1, 2] (fun c => c != 1)).1 = [0, 2] ∧
    (broadcast_state [0, 1, 2] (fun c => c != 1)).2 = [0, 2] ∧
    (broadcast_state [0, 1, 2] (fun c => c != 1)).2.length + 1 = 3 := by
  have h := C7_fanout_isolation [0, 1, 2] (fun c => c != 1) (by decide)
  refine ⟨by decide, ?_, ?_, ?_⟩
  · rw [h.1]; decide
  · rw [h.2.1]; decide
  · rw [h.2.1]; decide

end NovaTwin

namespace NovaTwin

/-! ## Sensor simulation: clamping and spike injection -/

theorem generate_sensor_value_mem (current min_val max_val change : ℚ)
    (h : min_val ≤ max_val) :
    min_val ≤ generate_sensor_value current min_val max_val change ∧
    generate_sensor_value current min_val max_val change ≤ max_val :=
  ⟨le_max_left _ _, max_le h (min_le_right _ _)⟩

/-- C2 counterexample: with the previous temperature at 380 and a
legitimate zero perturbation (`|0| ≤ 0.5`), a temperature spike tick
produces 410 — the stored reading, its classification input and the
history entry all carry 410, which lies outside the channel's
`[350, 380]` range, because the spike is added after
`generate_sensor_value` has already clamped. -/
theorem C2_spiked_value_escapes_range :
    (simulateTick initState ⟨380, 2.2, 7, 135, 2⟩
        ⟨0, 0, 0, 0, 0, true, true⟩).2.temps = 410 ∧
    (simulateTick initState ⟨380, 2.2, 7, 135, 2⟩
        ⟨0, 0, 0, 0, 0, true, true⟩).1.history.temperature = [410] ∧
    getSensor (simulateTick initState ⟨380, 2.2, 7, 135, 2⟩
        ⟨0, 0, 0, 0, 0, true, true⟩).1.sensors "temperature"
      = some ⟨"temperature", 410, "°C", "critical"⟩ ∧
    ¬ ((410 : ℚ) ≤ 380) := by
  refine ⟨?_, ?_, ?_, by norm_num⟩ <;> with_unfolding_all rfl

/-- C2 (amended): the spike offset is added after the random-walk step
AND after clamping, before classification and storage; hence on
spike-free draws every channel value lies in its `[min, max]` range,
while on a spiked draw the affected channel equals its clamped value
plus the fixed offset (and so may exceed the range); channels other
than temperature and pressure are never spiked and always stay in
range; the history receives exactly the (possibly spiked) value. -/
theorem C2_spike_added_after_clamp (st : GlobalState) (prev : ChannelVals)
    (r : TickRand) :
    (∀ current min_val max_val change, min_val ≤ max_val →
      min_val ≤ generate_sensor_value current min_val max_val change ∧
      generate_sensor_value current min_val max_val change ≤ max_val) ∧
    (r.spikeDraw = false →
      (350 ≤ (simulateTick st prev r).2.temps ∧
        (simulateTick st prev r).2.temps ≤ 380) ∧
      (2.0 ≤ (simulateTick st prev r).2.pressure ∧
        (simulateTick st prev r).2.pressure ≤ 2.4)) ∧
    ((6.8 ≤ (simulateTick st prev r).2.ph ∧ (simulateTick st prev r).2.ph ≤ 7.2) ∧
     (120 ≤ (simulateTick st prev r).2.flow ∧ (simulateTick st prev r).2.flow ≤ 150) ∧
     (0 ≤ (simulateTick st prev r).2.vibration ∧
       (simulateTick st prev r).2.vibration ≤ 10)) ∧
    (r.spikeDraw = true → r.spikeTemp = true →
      (simulateTick st prev r).2.temps
        = generate_sensor_value prev.temps 350 380 r.dTemp + 30) ∧
    (r.spikeDraw = true → r.spikeTemp = false →
      (simulateTick st prev r).2.pressure
        = generate_sensor_value prev.pressure 2.0 2.4 r.dPress + 0.3) ∧
    ((simulateTick st prev r).1.history.temperature
      = trimAppend 50 st.history.temperature ((simulateTick st prev r).2.temps)) ∧
    ((simulateTick st prev r).1.history.pressure
      = trimAppend 50 st.history.pressure ((simulateTick st prev r).2.pressure)) := by
  refine ⟨fun c mn mx d h => generate_sensor_value_mem c mn mx d h,
    ?_, ⟨?_, ?_, ?_⟩, ?_, ?_, rfl, rfl⟩
  · intro hsd
    have e1 : (simulateTick st prev r).2.temps
        = generate_sensor_value prev.temps 350 380 r.dTemp := by
      simp [simulateTick, hsd]
    have e2 : (simulateTick st prev r).2.pressure
        = generate_sensor_value prev.pressure 2.0 2.4 r.dPress := by
      simp [simulateTick, hsd]
    rw [e1, e2]
    exact ⟨generate_sensor_value_mem prev.temps 350 380 r.dTemp (by norm_num),
      generate_sensor_value_mem prev.pressure 2.0 2.4 r.dPress (by norm_num)⟩
  · have e : (simulateTick st prev r).2.ph
        = generate_sensor_value prev.ph 6.8 7.2 r.dPh := by
      simp [simulateTick]
    rw [e]
    exact generate_sensor_value_mem prev.ph 6.8 7.2 r.dPh (by norm_num)
  · have e : (simulateTick st prev r).2.flow
        = generate_sensor_value prev.flow 120 150 r.dFlow := by
      simp [simulateTick]
    rw [e]
    exact generate_sensor_value_mem prev.flow 120 150 r.dFlow (by norm_num)
  · have e : (simulateTick st prev r).2.vibration
        = generate_sensor_value prev.vibration 0 10 r.dVib := by
      simp [simulateTick]
    rw [e]
    exact generate_sensor_value_mem prev.vibration 0 10 r.dVib (by norm_num)
  · intro h1 h2
    simp [simulateTick, h1, h2]
  · intro h1 h2
    simp [simulateTick, h1, h2]

/-- Witness for C2: one spike-free tick staying in range and one
temperature-spike tick equal to clamped-value-plus-30. -/
theorem C2_spike_added_after_clamp_witness :
    (350 ≤ (simulateTick initState ⟨365, 2.2, 7, 135, 2⟩
        ⟨0.1, 0, 0, 0, 0, false, false⟩).2.temps ∧
      (simulateTick initState ⟨365, 2.2, 7, 135, 2⟩
        ⟨0.1, 0, 0, 0, 0, false, false⟩).2.temps ≤ 380) ∧
    (simulateTick initState ⟨380, 2.2, 7, 135, 2⟩
        ⟨0, 0, 0, 0, 0, true, true⟩).2.temps
      = generate_sensor_value 380 350 380 0 + 30 :=
  ⟨((C2_spike_added_after_clamp initState ⟨365, 2.2, 7, 135, 2⟩
      ⟨0.1, 0, 0, 0, 0, false, false⟩).2.1 rfl).1,
   (C2_spike_added_after_clamp initState ⟨380, 2.2, 7, 135, 2⟩
      ⟨0, 0, 0, 0, 0, true, true⟩).2.2.2.1 rfl rfl⟩

end NovaTwin

namespace NovaTwin

theorem sensorIds_setSensor (l : List SensorData) (s : SensorData) :
    sensorIds (setSensor l s)
      = if s.id ∈ sensorIds l then sensorIds l else sensorIds l ++ [s.id] := by
  unfold setSensor sensorIds
  by_cases h : l.any (fun t => t.id == s.id)
  · have hm : s.id ∈ l.map (fun t => t.id) := by
      simp only [List.any_eq_true, beq_iff_eq] at h
      obtain ⟨t, ht, he⟩ := h
      exact List.mem_map.mpr ⟨t, ht, he⟩
    rw [if_pos h, if_pos hm, List.map_map]
    apply List.map_congr_left
    intro t _
    by_cases he : t.id = s.id <;> simp [he]
  · have hm : s.id ∉ l.map (fun t => t.id) := by
      simp only [List.any_eq_true, beq_iff_eq] at h
      simp only [List.mem_map, not_exists]
      rintro t ⟨ht, he⟩
      exact h ⟨t, ht, he⟩
    rw [if_neg h, if_neg hm, List.map_append]
    rfl

theorem mem_sensorIds_setSensor (l : List SensorData) (s : SensorData) (x : String) :
    x ∈ sensorIds (setSensor l s) ↔ x ∈ sensorIds l ∨ x = s.id := by
  rw [sensorIds_setSensor]
  split_ifs with hm
  · constructor
    · exact Or.inl
    · rintro (hx | rfl)
      · exact hx
      · exact hm
  · simp [List.mem_append]

theorem nodup_sensorIds_setSensor (l : List SensorData) (s : SensorData)
    (h : (sensorIds l).Nodup) : (sensorIds (setSensor l s)).Nodup := by
  rw [sensorIds_setSensor]
  split_ifs with hm
  · exact h
  · simp [List.nodup_append, h, hm]

theorem getSensor_setSensor_self (l : List SensorData) (s : SensorData) :
    getSensor (setSensor l s) s.id = some s := by
  unfold getSensor setSensor
  induction l with
  | nil => simp
  | cons a t ih =>
    by_cases ha : a.id = s.id
    · have hany : (a :: t).any (fun u => u.id == s.id) = true := by
        simp [List.any_cons, ha]
      rw [if_pos hany]
      simp [List.find?_cons, ha]
    · have hstep : (a :: t).any (fun u => u.id == s.id) = t.any (fun u => u.id == s.id) := by
        simp [List.any_cons, ha]
      by_cases hat : t.any (fun u => u.id == s.id)
      · rw [if_pos (by rw [hstep]; exact hat)]
        simp only [List.map_cons, if_neg ha]
        rw [List.find?_cons_of_neg _ (by simp [ha])]
        rw [if_pos hat] at ih
        exact ih
      · rw [if_neg (by rw [hstep]; simpa using hat)]
        simp only [List.cons_append]
        rw [List.find?_cons_of_neg _ (by simp [ha])]
        rw [if_neg hat] at ih
        exact ih

theorem find?_map_replace (l : List SensorData) (s : SensorData)
    (x : String) (hx : x ≠ s.id) :
    List.find? (fun t => t.id == x) (l.map (fun t => if t.id = s.id then s else t))
      = List.find? (fun t => t.id == x) l := by
  induction l with
  | nil => rfl
  | cons a t ih =>
    simp only [List.map_cons]
    by_cases ha : a.id = s.id
    · rw [if_pos ha,
        List.find?_cons_of_neg _ (by simp [Ne.symm hx]),
        List.find?_cons_of_neg _ (by simp [ha, Ne.symm hx])]
      exact ih
    · rw [if_neg ha]
      by_cases hax : a.id = x
      · rw [List.find?_cons_of_pos _ (by simp [hax]),
          List.find?_cons_of_pos _ (by simp [hax])]
      · rw [List.find?_cons_of_neg _ (by simp [hax]),
          List.find?_cons_of_neg _ (by simp [hax])]
        exact ih

theorem find?_append_single (l : List SensorData) (s : SensorData)
    (x : String) (hx : x ≠ s.id) :
    List.find? (fun t => t.id == x) (l ++ [s])
      = List.find? (fun t => t.id == x) l := by
  induction l with
  | nil =>
    have : (s.id == x) = false := by simp [Ne.symm hx]
    simp [List.find?, this]
  | cons a t ih =>
    simp only [List.cons_append]
    by_cases hax : a.id = x
    · rw [List.find?_cons_of_pos _ (by simp [hax]),
        List.find?_cons_of_pos _ (by simp [hax])]
    · rw [List.find?_cons_of_neg _ (by simp [hax]),
        List.find?_cons_of_neg _ (by simp [hax])]
      exact ih

theorem getSensor_setSensor_other (l : List SensorData) (s : SensorData)
    (x : String) (hx : x ≠ s.id) :
    getSensor (setSensor l s) x = getSensor l x := by
  unfold getSensor setSensor
  by_cases h : l.any (fun t => t.id == s.id)
  · rw [if_pos h]
    exact find?_map_replace l s x hx
  · rw [if_neg h]
    exact find?_append_single l s x hx

end NovaTwin

namespace NovaTwin

/-! ## The five per-tick sensor upserts -/

theorem getSensor_tickSensors_temperature (sensors : List SensorData)
    (v : ChannelVals) :
    getSensor (tickSensors sensors v) "temperature"
      = some ⟨"temperature", pyRound2 v.temps, "°C", classify v.temps 375 355⟩ := by
  unfold tickSensors update_sensor
  rw [getSensor_setSensor_other _ _ _ (by simp),
    getSensor_setSensor_other _ _ _ (by simp),
    getSensor_setSensor_other _ _ _ (by simp),
    getSensor_setSensor_other _ _ _ (by simp)]
  exact getSensor_setSensor_self _ _

theorem getSensor_tickSensors_pressure (sensors : List SensorData)
    (v : ChannelVals) :
    getSensor (tickSensors sensors v) "pressure"
      = some ⟨"pressure", pyRound2 v.pressure, "MPa",
          classify v.pressure 2.35 2.05⟩ := by
  unfold tickSensors update_sensor
  rw [getSensor_setSensor_other _ _ _ (by simp),
    getSensor_setSensor_other _ _ _ (by simp),
    getSensor_setSensor_other _ _ _ (by simp)]
  exact getSensor_setSensor_self _ _

theorem getSensor_tickSensors_ph (sensors : List SensorData)
    (v : ChannelVals) :
    getSensor (tickSensors sensors v) "ph"
      = some ⟨"ph", pyRound2 v.ph, "pH", classify v.ph 7.15 6.85⟩ := by
  unfold tickSensors update_sensor
  rw [getSensor_setSensor_other _ _ _ (by simp),
    getSensor_setSensor_other _ _ _ (by simp)]
  exact getSensor_setSensor_self _ _

theorem getSensor_tickSensors_flowRate (sensors : List SensorData)
    (v : ChannelVals) :
    getSensor (tickSensors sensors v) "flowRate"
      = some ⟨"flowRate", pyRound2 v.flow, "m³/h",
          classify v.flow 145 125⟩ := by
  unfold tickSensors update_sensor
  rw [getSensor_setSensor_other _ _ _ (by simp)]
  exact getSensor_setSensor_self _ _

theorem getSensor_tickSensors_vibration (sensors : List SensorData)
    (v : ChannelVals) :
    getSensor (tickSensors sensors v) "vibration"
      = some ⟨"vibration", pyRound2 v.vibration, "mm/s",
          classify v.vibration 8 0⟩ := by
  unfold tickSensors update_sensor
  exact getSensor_setSensor_self _ _

theorem mem_sensorIds_tickSensors (sensors : List SensorData) (v : ChannelVals)
    (x : String) :
    x ∈ sensorIds (tickSensors sensors v)
      ↔ x ∈ sensorIds sensors ∨ x ∈ channelIds := by
  unfold tickSensors update_sensor
  simp only [mem_sensorIds_setSensor, channelIds, List.mem_cons,
    List.not_mem_nil]
  tauto

theorem nodup_sensorIds_tickSensors (sensors : List SensorData)
    (v : ChannelVals) (h : (sensorIds sensors).Nodup) :
    (sensorIds (tickSensors sensors v)).Nodup := by
  unfold tickSensors update_sensor
  exact nodup_sensorIds_setSensor _ _ (nodup_sensorIds_setSensor _ _
    (nodup_sensorIds_setSensor _ _ (nodup_sensorIds_setSensor _ _
      (nodup_sensorIds_setSensor _ _ h))))

theorem length_tickSensors (sensors : List SensorData) (v : ChannelVals)
    (hsub : ∀ x ∈ sensorIds sensors, x ∈ channelIds)
    (hnd : (sensorIds sensors).Nodup) :
    (tickSensors sensors v).length = channelIds.length := by
  have hnd' := nodup_sensorIds_tickSensors sensors v hnd
  have hchan : channelIds.Nodup := by decide
  have hset : (sensorIds (tickSensors sensors v)).toFinset
      = channelIds.toFinset := by
    ext x
    simp only [List.mem_toFinset]
    rw [mem_sensorIds_tickSensors]
    constructor
    · rintro (hx | hx)
      · exact hsub x hx
      · exact hx
    · exact Or.inr
  have h1 := List.toFinset_card_of_nodup hnd'
  have h2 := List.toFinset_card_of_nodup hchan
  have hlen : (sensorIds (tickSensors sensors v)).length = channelIds.length := by
    rw [← h1, hset, h2]
  have hm : (tickSensors sensors v).length
      = (sensorIds (tickSensors sensors v)).length := by
    unfold sensorIds
    rw [List.length_map]
  rw [hm, hlen]

theorem takeLast_one_append (pre : List AnomalyEvent) (e : AnomalyEvent) :
    takeLast 1 (pre ++ [e]) = [e] := by
  unfold takeLast
  have h : (pre ++ [e]).length - 1 = pre.length := by simp
  rw [h, List.drop_left]

end NovaTwin

namespace NovaTwin

/-- C9: after a tick, the `init` envelope carries one reading per
configured channel (payload size = number of channels), the zone
health, and the FULL anomaly log; a `sensor_update` envelope has the
identical payload and zone-health fields but carries at most the single
most recent anomaly — the empty list when none has occurred, exactly
the last event otherwise. -/
theorem C9_snapshot_consistency (st : GlobalState) (prev : ChannelVals)
    (r : TickRand)
    (hsub : ∀ x ∈ sensorIds st.sensors, x ∈ channelIds)
    (hnd : (sensorIds st.sensors).Nodup) (st' : GlobalState)
    (hst : st' = (simulateTick st prev r).1) :
    (initMsg st').type = "init" ∧
    (initMsg st').payload.length = channelIds.length ∧
    (initMsg st').anomalies = st'.anomalies ∧
    (sensorUpdateMsg st').type = "sensor_update" ∧
    (sensorUpdateMsg st').payload = (initMsg st').payload ∧
    (sensorUpdateMsg st').twin_state = (initMsg st').twin_state ∧
    (sensorUpdateMsg st').anomalies.length ≤ 1 ∧
    (st'.anomalies = [] → (sensorUpdateMsg st').anomalies = []) ∧
    (∀ (pre : List AnomalyEvent) (e : AnomalyEvent),
      st'.anomalies = pre ++ [e] → (sensorUpdateMsg st').anomalies = [e]) := by
  subst hst
  refine ⟨rfl, ?_, rfl, rfl, rfl, rfl, takeLast_length_le 1 _, ?_, ?_⟩
  · exact length_tickSensors st.sensors ((simulateTick st prev r).2) hsub hnd
  · intro h
    show takeLast 1 ((simulateTick st prev r).1).anomalies = []
    rw [h]
    rfl
  · intro pre e h
    show takeLast 1 ((simulateTick st prev r).1).anomalies = [e]
    rw [h]
    exact takeLast_one_append pre e

/-- A concrete first tick from the initial state, used as witness data. -/
def demoTick : GlobalState :=
  (simulateTick initState ⟨365, 2.2, 7, 135, 2⟩ ⟨0, 0, 0, 0, 0, false, false⟩).1

/-- Witness for C9 on the first tick from the initial state. -/
theorem C9_snapshot_consistency_witness :
    (∀ x ∈ sensorIds initState.sensors, x ∈ channelIds) ∧
    (sensorIds initState.sensors).Nodup ∧
    demoTick = (simulateTick initState ⟨365, 2.2, 7, 135, 2⟩
      ⟨0, 0, 0, 0, 0, false, false⟩).1 ∧
    ((initMsg demoTick).type = "init" ∧
     (initMsg demoTick).payload.length = channelIds.length ∧
     (initMsg demoTick).anomalies = demoTick.anomalies ∧
     (sensorUpdateMsg demoTick).type = "sensor_update" ∧
     (sensorUpdateMsg demoTick).payload = (initMsg demoTick).payload ∧
     (sensorUpdateMsg demoTick).twin_state = (initMsg demoTick).twin_state ∧
     (sensorUpdateMsg demoTick).anomalies.length ≤ 1 ∧
     (demoTick.anomalies = [] → (sensorUpdateMsg demoTick).anomalies = []) ∧
     (∀ (pre : List AnomalyEvent) (e : AnomalyEvent),
       demoTick.anomalies = pre ++ [e] →
         (sensorUpdateMsg demoTick).anomalies = [e])) :=
  ⟨by simp [initState, sensorIds], by simp [initState, sensorIds], rfl,
   C9_snapshot_consistency initState ⟨365, 2.2, 7, 135, 2⟩
     ⟨0, 0, 0, 0, 0, false, false⟩ (by simp [initState, sensorIds])
     (by simp [initState, sensorIds]) demoTick rfl⟩

/-- C10: on every tick and for every one of the five channels, the
published reading stores the value rounded to two decimals while the
history buffer appends the unrounded value and the status is
classified on the unrounded value; at value 365.123 the rounded
reading (365.12) differs from the raw history/training value. -/
theorem C10_reading_rounded_history_raw (st : GlobalState) (prev : ChannelVals)
    (r : TickRand) :
    (getSensor (simulateTick st prev r).1.sensors "temperature"
      = some ⟨"temperature", pyRound2 ((simulateTick st prev r).2.temps), "°C",
          classify ((simulateTick st prev r).2.temps) 375 355⟩) ∧
    (getSensor (simulateTick st prev r).1.sensors "pressure"
      = some ⟨"pressure", pyRound2 ((simulateTick st prev r).2.pressure), "MPa",
          classify ((simulateTick st prev r).2.pressure) 2.35 2.05⟩) ∧
    (getSensor (simulateTick st prev r).1.sensors "ph"
      = some ⟨"ph", pyRound2 ((simulateTick st prev r).2.ph), "pH",
          classify ((simulateTick st prev r).2.ph) 7.15 6.85⟩) ∧
    (getSensor (simulateTick st prev r).1.sensors "flowRate"
      = some ⟨"flowRate", pyRound2 ((simulateTick st prev r).2.flow), "m³/h",
          classify ((simulateTick st prev r).2.flow) 145 125⟩) ∧
    (getSensor (simulateTick st prev r).1.sensors "vibration"
      = some ⟨"vibration", pyRound2 ((simulateTick st prev r).2.vibration), "mm/s",
          classify ((simulateTick st prev r).2.vibration) 8 0⟩) ∧
    ((simulateTick st prev r).1.history.temperature
      = trimAppend 50 st.history.temperature ((simulateTick st prev r).2.temps)) ∧
    ((simulateTick st prev r).1.history.pressure
      = trimAppend 50 st.history.pressure ((simulateTick st prev r).2.pressure)) ∧
    ((simulateTick st prev r).1.history.ph
      = trimAppend 50 st.history.ph ((simulateTick st prev r).2.ph)) ∧
    ((simulateTick st prev r).1.history.flowRate
      = trimAppend 50 st.history.flowRate ((simulateTick st prev r).2.flow)) ∧
    ((simulateTick st prev r).1.history.vibration
      = trimAppend 50 st.history.vibration ((simulateTick st prev r).2.vibration)) ∧
    pyRound2 365.123 = 365.12 ∧
    pyRound2 365.123 ≠ (365.123 : ℚ) := by
  refine ⟨?_, ?_, ?_, ?_, ?_, rfl, rfl, rfl, rfl, rfl,
    by norm_num [pyRound2], by norm_num [pyRound2]⟩
  · exact getSensor_tickSensors_temperature st.sensors ((simulateTick st prev r).2)
  · exact getSensor_tickSensors_pressure st.sensors ((simulateTick st prev r).2)
  · exact getSensor_tickSensors_ph st.sensors ((simulateTick st prev r).2)
  · exact getSensor_tickSensors_flowRate st.sensors ((simulateTick st prev r).2)
  · exact getSensor_tickSensors_vibration st.sensors ((simulateTick st prev r).2)

end NovaTwin
